import Mathlib

/-!
Shallow embedding of the webhook and resync logic of the `ocean` repository:
- `src/integrations/pagerduty/main.py` (webhook handler, startup hook),
- `src/integrations/wiz/main.py` (webhook handler),
- `src/integrations/gitlab/gitlab_integration/ocean.py` (startup hook,
  project resync with batched enrichment, pipeline resync).

Python dicts of webhook payloads and provider responses are modelled as the
JSON-like type `J`; dict indexing that can raise `KeyError`/`TypeError` is
`jGet` returning `Except`.  Each handler returns, in the `Except` monad, the
ordered trace of provider fetches and sink calls it performs.  Provider
clients (which live outside this repository) enter as oracle function fields
of the client/context structures.
-/

/-- JSON-like values carried by webhook payloads and provider responses. -/
inductive J where
  | s : String → J
  | b : Bool → J
  | o : List (String × J) → J

/-- Errors escaping the Python handlers: `KeyError`/`TypeError` from dict
indexing, a 404 raised by a provider single-record fetch, and
`fastapi.HTTPException` with its status code. -/
inductive PyErr where
  | keyError : String → PyErr
  | typeError : PyErr
  | notFound : PyErr
  | httpError : Nat → PyErr

/-- First-match association lookup: Python dict read (dicts have unique keys,
so first match is the match). -/
def dlookup {α : Type} : List (String × α) → String → Option α
  | [], _ => none
  | (k, v) :: rest, key => if k = key then some v else dlookup rest key

/-- Python `j[k]`: returns the value, raises `KeyError` when the key is
missing, `TypeError` when `j` is not a dict. -/
def jGet (j : J) (k : String) : Except PyErr J :=
  match j with
  | J.o kvs =>
    match dlookup kvs k with
    | some v => Except.ok v
    | none => Except.error (PyErr.keyError k)
  | _ => Except.error PyErr.typeError

/-- Observable actions of the PagerDuty webhook handler: a single-record
fetch from the provider (`get_singular_from_pager_duty`) and the sink calls
`ocean.register_raw` / `ocean.unregister_raw`. -/
inductive PDAction where
  | getSingular (objectType : String) (identifier : J)
  | registerRaw (kind : String) (records : List J)
  | unregisterRaw (kind : String) (records : List J)

/-- The `PagerDutyClient` surface used by `main.py`: the three event-type
lists, and the single-record fetch as an oracle (the client class itself is
outside this repository). -/
structure PDClient where
  service_delete_events : List String
  incident_upsert_events : List String
  service_upsert_events : List String
  getSingle : String → J → Except PyErr J

/-- Python `event_type in events` where `events` is a list of strings: a
non-string value is a member of no such list. -/
def evIn (et : J) (events : List String) : Bool :=
  match et with
  | J.s t => events.contains t
  | _ => false

/-- `upsert_incident_webhook_handler` of `src/integrations/pagerduty/main.py`
(lines 37-58).  The `logger.info` f-string on line 40 already indexes
`data["event"]["event_type"]`, so those two lookups happen before any
branching; each branch re-indexes exactly as the Python does.  On success the
result is the ordered trace of provider/sink actions. -/
def upsert_incident_webhook_handler (c : PDClient) (data : J) :
    Except PyErr (List PDAction) :=
  match jGet data "event" with
  | Except.error e => Except.error e
  | Except.ok ev =>
  match jGet ev "event_type" with
  | Except.error e => Except.error e
  | Except.ok et =>
  if evIn et c.service_delete_events then
    match jGet ev "data" with
    | Except.error e => Except.error e
    | Except.ok d => Except.ok [PDAction.unregisterRaw "services" [d]]
  else if evIn et c.incident_upsert_events then
    match jGet ev "data" with
    | Except.error e => Except.error e
    | Except.ok d =>
    match jGet d "id" with
    | Except.error e => Except.error e
    | Except.ok incidentId =>
    match c.getSingle "incidents" incidentId with
    | Except.error e => Except.error e
    | Except.ok response =>
    match jGet response "incident" with
    | Except.error e => Except.error e
    | Except.ok inc =>
      Except.ok [PDAction.getSingular "incidents" incidentId,
                 PDAction.registerRaw "incidents" [inc]]
  else if evIn et c.service_upsert_events then
    match jGet ev "data" with
    | Except.error e => Except.error e
    | Except.ok d =>
    match jGet d "id" with
    | Except.error e => Except.error e
    | Except.ok serviceId =>
    match c.getSingle "services" serviceId with
    | Except.error e => Except.error e
    | Except.ok response =>
    match jGet response "service" with
    | Except.error e => Except.error e
    | Except.ok sv =>
      Except.ok [PDAction.getSingular "services" serviceId,
                 PDAction.registerRaw "services" [sv]]
  else Except.ok []

/-- Observable actions of the Wiz webhook handler. -/
inductive WizAction where
  | getSingleIssue (id : J)
  | registerRaw (kind : String) (records : List J)

/-- The configuration and `WizClient` surface used by the Wiz handler; the
single-issue fetch is an oracle (the client class is outside this
repository). -/
structure WizCtx where
  wiz_webhook_verification_token : String
  get_single_issue : J → Except PyErr J

/-- `handle_webhook_request` of `src/integrations/wiz/main.py` (lines 56-75):
bearer-token check first (401 on mismatch), then `data["issue"]["id"]`
lookup, single-issue refetch and `register_raw`, returning `{"ok": True}`. -/
def handle_webhook_request (ctx : WizCtx) (data : J) (credentials : String) :
    Except PyErr (List WizAction × J) :=
  if ctx.wiz_webhook_verification_token ≠ credentials then
    Except.error (PyErr.httpError 401)
  else
  match jGet data "issue" with
  | Except.error e => Except.error e
  | Except.ok issueObj =>
  match jGet issueObj "id" with
  | Except.error e => Except.error e
  | Except.ok issueId =>
  match ctx.get_single_issue issueId with
  | Except.error e => Except.error e
  | Except.ok issue =>
    Except.ok ([WizAction.getSingleIssue issueId,
                WizAction.registerRaw "issue" [issue]],
               J.o [("ok", J.b true)])

/-- Observable actions of the GitLab startup hook `on_start`. -/
inductive GLStartAction where
  | logSkipOnce
  | warnNoAppHost
  | setupApplication
  | warnSetupFailed

/-- `on_start` of `src/integrations/gitlab/gitlab_integration/ocean.py`
(lines 42-67): skip when the event listener type is `"ONCE"`; warn and
return when `logic_settings.get("app_host")` is falsy (absent or empty);
otherwise attempt `setup_application`, catching any failure with a warning
(`setup_fails` stands for whether that external call raises). -/
def gitlab_on_start (event_listener_type : String) (app_host : Option String)
    (setup_fails : Bool) : List GLStartAction :=
  if event_listener_type = "ONCE" then [GLStartAction.logSkipOnce]
  else if app_host.getD "" = "" then [GLStartAction.warnNoAppHost]
  else if setup_fails then
    [GLStartAction.setupApplication, GLStartAction.warnSetupFailed]
  else [GLStartAction.setupApplication]

/-- Observable actions of the PagerDuty startup hook. -/
inductive PDStartAction where
  | logSubscribing
  | createWebhooksIfNotExists

/-- `on_start` of `src/integrations/pagerduty/main.py` (lines 61-64).  The
parameters model the ambient configuration (event listener type, app host)
that the hook could consult but does not: its body unconditionally logs and
calls `create_webhooks_if_not_exists`. -/
def pagerduty_on_start (event_listener_type : String)
    (app_host : Option String) : List PDStartAction :=
  [PDStartAction.logSubscribing, PDStartAction.createWebhooksIfNotExists]

/-- `PROJECT_RESYNC_BATCH_SIZE` of
`src/integrations/gitlab/gitlab_integration/ocean.py` line 19. -/
def PROJECT_RESYNC_BATCH_SIZE : Nat := 10

/-- The `while projects_batch := tuple(islice(projects_batch_iter, k))` loop
of `on_resync` (lines 86-90), generalized over the constant `k`: split a
page into consecutive groups of at most `k` records.  `islice` with `k = 0`
yields an empty tuple, so the loop body never runs. -/
def chunks {α : Type} : Nat → List α → List (List α)
  | _, [] => []
  | 0, _ :: _ => []
  | k + 1, x :: xs =>
    (x :: xs).take (k + 1) :: chunks (k + 1) ((x :: xs).drop (k + 1))
termination_by k l => l.length
decreasing_by simp [List.length_drop]; omega

/-- `await asyncio.gather(*tasks)` over `tasks = [enrich p for p in batch]`
(lines 95-98) without `return_exceptions`: results in task order on success,
the exception of a failed task propagated otherwise. -/
def gatherExcept {α β ε : Type} (f : α → Except ε β) :
    List α → Except ε (List β)
  | [] => Except.ok []
  | x :: xs =>
    match f x with
    | Except.error e => Except.error e
    | Except.ok y =>
      match gatherExcept f xs with
      | Except.error e => Except.error e
      | Except.ok ys => Except.ok (y :: ys)

/-- The yield loop of `on_resync` over the chunked groups: each group is
enriched by one gather and yielded; a failing gather raises out of the
async generator, so later groups are neither enriched nor yielded.  The
result is the list of batches yielded before any failure, paired with the
error if one occurred. -/
def yieldBatches {α ε : Type} (enrich : α → Except ε α) :
    List (List α) → List (List α) × Option ε
  | [] => ([], none)
  | b :: bs =>
    match gatherExcept enrich b with
    | Except.error e => ([], some e)
    | Except.ok eb =>
      let rest := yieldBatches enrich bs
      (eb :: rest.1, rest.2)

/-- The project branch of `on_resync` of
`src/integrations/gitlab/gitlab_integration/ocean.py` (lines 77-102) for one
page of projects: chunk into groups of `PROJECT_RESYNC_BATCH_SIZE`, enrich
each group with one gather (`enrich_project_with_extras` is the oracle
`enrich`), and yield each enriched group. -/
def on_resync_project {α ε : Type} (enrich : α → Except ε α)
    (projects : List α) : List (List α) × Option ε :=
  yieldBatches enrich (chunks PROJECT_RESYNC_BATCH_SIZE projects)

/-- Python `{**d, k: v}`: the entry for `k` is updated in place when `d`
already has the key, appended otherwise; all other entries are unchanged. -/
def dict_set {α : Type} (d : List (String × α)) (k : String) (v : α) :
    List (String × α) :=
  if (dlookup d k).isSome then
    d.map (fun p => if p.1 = k then (k, v) else p)
  else d ++ [(k, v)]

/-- The batch emitted by `resync_pipelines` of
`src/integrations/gitlab/gitlab_integration/ocean.py` (lines 167-170):
`[{**pipeline.asdict(), "__project": project.asdict()} for pipeline in
pipelines_batch]`, with the parent project snapshot as the value `project`. -/
def resync_pipelines_batch {α : Type} (project : α)
    (pipelines : List (List (String × α))) : List (List (String × α)) :=
  pipelines.map (fun pipeline => dict_set pipeline "__project" project)

/-!  Theorems.  Claim theorems appear with their claim ids; the lemmas
before them are shared helpers. -/

/-- C1: every upsert-classified webhook event (PagerDuty incident upserts,
PagerDuty service upserts, and the Wiz handler) hands the sink exactly the
record refetched by id from the provider via the single-record fetch, never
the fields carried in the webhook payload itself. -/
theorem webhook_upsert_always_refetches :
    (∀ (c : PDClient) (data ev et d incidentId response inc : J),
      jGet data "event" = Except.ok ev →
      jGet ev "event_type" = Except.ok et →
      evIn et c.service_delete_events = false →
      evIn et c.incident_upsert_events = true →
      jGet ev "data" = Except.ok d →
      jGet d "id" = Except.ok incidentId →
      c.getSingle "incidents" incidentId = Except.ok response →
      jGet response "incident" = Except.ok inc →
      upsert_incident_webhook_handler c data =
        Except.ok [PDAction.getSingular "incidents" incidentId,
                   PDAction.registerRaw "incidents" [inc]])
    ∧ (∀ (c : PDClient) (data ev et d serviceId response sv : J),
      jGet data "event" = Except.ok ev →
      jGet ev "event_type" = Except.ok et →
      evIn et c.service_delete_events = false →
      evIn et c.incident_upsert_events = false →
      evIn et c.service_upsert_events = true →
      jGet ev "data" = Except.ok d →
      jGet d "id" = Except.ok serviceId →
      c.getSingle "services" serviceId = Except.ok response →
      jGet response "service" = Except.ok sv →
      upsert_incident_webhook_handler c data =
        Except.ok [PDAction.getSingular "services" serviceId,
                   PDAction.registerRaw "services" [sv]])
    ∧ (∀ (ctx : WizCtx) (data issueObj issueId issue : J)
        (credentials : String),
      ctx.wiz_webhook_verification_token = credentials →
      jGet data "issue" = Except.ok issueObj →
      jGet issueObj "id" = Except.ok issueId →
      ctx.get_single_issue issueId = Except.ok issue →
      handle_webhook_request ctx data credentials =
        Except.ok ([WizAction.getSingleIssue issueId,
                    WizAction.registerRaw "issue" [issue]],
                   J.o [("ok", J.b true)])) := by
  refine ⟨?_, ?_, ?_⟩
  · intro c data ev et d incidentId response inc h1 h2 hdel hup h3 h4 h5 h6
    simp [upsert_incident_webhook_handler, h1, h2, hdel, hup, h3, h4, h5, h6]
  · intro c data ev et d serviceId response sv h1 h2 hdel hinc hup h3 h4 h5 h6
    simp [upsert_incident_webhook_handler, h1, h2, hdel, hinc, hup, h3, h4,
      h5, h6]
  · intro ctx data issueObj issueId issue credentials htok h1 h2 h3
    simp [handle_webhook_request, htok, h1, h2, h3]

/-- Witness for C1 at a concrete client and payload. -/
theorem webhook_upsert_always_refetches_witness :
    upsert_incident_webhook_handler
      ⟨["service.deleted"], ["incident.triggered"], ["service.updated"],
        fun _ _ => Except.ok (J.o [("incident", J.s "live")])⟩
      (J.o [("event", J.o [("event_type", J.s "incident.triggered"),
                           ("data", J.o [("id", J.s "42")])])]) =
      Except.ok [PDAction.getSingular "incidents" (J.s "42"),
                 PDAction.registerRaw "incidents" [J.s "live"]] :=
  webhook_upsert_always_refetches.1 _ _ _ _ _ _ _ _
    rfl rfl rfl rfl rfl rfl rfl rfl

/-- C2: a delete-classified webhook event results in exactly one
`unregister_raw` call carrying the record data embedded in the event payload;
no single-record refetch occurs (the trace holds no fetch action and the
outcome is the same for every fetch oracle). -/
theorem webhook_delete_shortcut (c : PDClient) (data ev et d : J)
    (h1 : jGet data "event" = Except.ok ev)
    (h2 : jGet ev "event_type" = Except.ok et)
    (hdel : evIn et c.service_delete_events = true)
    (h3 : jGet ev "data" = Except.ok d) :
    upsert_incident_webhook_handler c data =
      Except.ok [PDAction.unregisterRaw "services" [d]]
    ∧ (∀ g, upsert_incident_webhook_handler
        { c with getSingle := g } data =
        Except.ok [PDAction.unregisterRaw "services" [d]])
    ∧ (∀ k i, PDAction.getSingular k i ∉
        [PDAction.unregisterRaw "services" [d]]) := by
  refine ⟨?_, fun g => ?_, ?_⟩
  · simp [upsert_incident_webhook_handler, h1, h2, hdel, h3]
  · simp [upsert_incident_webhook_handler, h1, h2, hdel, h3]
  · intro k i
    simp

/-- Witness for C2 at a concrete client and payload. -/
theorem webhook_delete_shortcut_witness :
    upsert_incident_webhook_handler
      ⟨["service.deleted"], ["incident.triggered"], ["service.updated"],
        fun _ _ => Except.ok (J.o [])⟩
      (J.o [("event", J.o [("event_type", J.s "service.deleted"),
                           ("data", J.o [("id", J.s "7")])])]) =
      Except.ok [PDAction.unregisterRaw "services"
        [J.o [("id", J.s "7")]]] :=
  (webhook_delete_shortcut
    ⟨["service.deleted"], ["incident.triggered"], ["service.updated"],
      fun _ _ => Except.ok (J.o [])⟩
    (J.o [("event", J.o [("event_type", J.s "service.deleted"),
                         ("data", J.o [("id", J.s "7")])])])
    (J.o [("event_type", J.s "service.deleted"),
          ("data", J.o [("id", J.s "7")])])
    (J.s "service.deleted")
    (J.o [("id", J.s "7")])
    rfl rfl rfl rfl).1

/-- C10: a Wiz webhook request whose bearer credentials differ from the
configured verification token is rejected with HTTP 401 before any provider
fetch or sink registration: the handler returns the 401 error, never a
success trace, and the outcome does not depend on the issue-fetch oracle. -/
theorem wiz_auth_gate (ctx : WizCtx) (data : J) (credentials : String)
    (h : ctx.wiz_webhook_verification_token ≠ credentials) :
    handle_webhook_request ctx data credentials =
      Except.error (PyErr.httpError 401)
    ∧ (∀ acts ret, handle_webhook_request ctx data credentials ≠
        Except.ok (acts, ret))
    ∧ (∀ g, handle_webhook_request { ctx with get_single_issue := g }
        data credentials = Except.error (PyErr.httpError 401)) := by
  refine ⟨?_, ?_, fun g => ?_⟩
  · simp [handle_webhook_request, h]
  · intro acts ret hcontra
    rw [handle_webhook_request, if_pos h] at hcontra
    exact Except.noConfusion hcontra
  · simp [handle_webhook_request, h]

/-- Witness for C10 at a concrete context, payload and wrong credential. -/
theorem wiz_auth_gate_witness :
    handle_webhook_request
      ⟨"secret", fun _ => Except.ok (J.o [])⟩
      (J.o [("issue", J.o [("id", J.s "1")])]) "wrong" =
      Except.error (PyErr.httpError 401) :=
  (wiz_auth_gate ⟨"secret", fun _ => Except.ok (J.o [])⟩
    (J.o [("issue", J.o [("id", J.s "1")])]) "wrong" (by decide)).1

/-- C3 counterexample: a payload with the identifying fields missing (here an
empty dict, so `data["event"]` itself is absent) makes the PagerDuty webhook
handler raise a `KeyError` out of the endpoint instead of logging and
ignoring the event. -/
theorem webhook_missing_fields_cex :
    upsert_incident_webhook_handler
      ⟨["service.deleted"], ["incident.triggered"], ["service.updated"],
        fun _ _ => Except.ok (J.o [])⟩
      (J.o []) = Except.error (PyErr.keyError "event") := rfl

/-- C3 amended: an event whose event-type discriminator is present but
mapped to no known type is ignored and the handler returns normally; a
payload missing the event-type discriminator (or, for Wiz, the issue
identifier) makes the handler propagate the `KeyError` out of the webhook
endpoint rather than logging and ignoring it. -/
theorem webhook_missing_fields_amended :
    (∀ (c : PDClient) (data ev et : J),
      jGet data "event" = Except.ok ev →
      jGet ev "event_type" = Except.ok et →
      evIn et c.service_delete_events = false →
      evIn et c.incident_upsert_events = false →
      evIn et c.service_upsert_events = false →
      upsert_incident_webhook_handler c data = Except.ok [])
    ∧ (∀ (c : PDClient) (data : J) (e : PyErr),
      jGet data "event" = Except.error e →
      upsert_incident_webhook_handler c data = Except.error e)
    ∧ (∀ (c : PDClient) (data ev : J) (e : PyErr),
      jGet data "event" = Except.ok ev →
      jGet ev "event_type" = Except.error e →
      upsert_incident_webhook_handler c data = Except.error e)
    ∧ (∀ (ctx : WizCtx) (data : J) (credentials : String) (e : PyErr),
      ctx.wiz_webhook_verification_token = credentials →
      jGet data "issue" = Except.error e →
      handle_webhook_request ctx data credentials = Except.error e) := by
  refine ⟨?_, ?_, ?_, ?_⟩
  · intro c data ev et h1 h2 hdel hinc hsvc
    simp [upsert_incident_webhook_handler, h1, h2, hdel, hinc, hsvc]
  · intro c data e h1
    simp [upsert_incident_webhook_handler, h1]
  · intro c data ev e h1 h2
    simp [upsert_incident_webhook_handler, h1, h2]
  · intro ctx data credentials e htok h1
    simp [handle_webhook_request, htok, h1]

/-- Witness for the amended C3: an unmapped event type is ignored with a
normal return, and a payload without the discriminator propagates the
`KeyError`. -/
theorem webhook_missing_fields_amended_witness :
    upsert_incident_webhook_handler
      ⟨["service.deleted"], ["incident.triggered"], ["service.updated"],
        fun _ _ => Except.ok (J.o [])⟩
      (J.o [("event", J.o [("event_type", J.s "unmapped.event")])]) =
      Except.ok []
    ∧ upsert_incident_webhook_handler
      ⟨["service.deleted"], ["incident.triggered"], ["service.updated"],
        fun _ _ => Except.ok (J.o [])⟩
      (J.o [("other", J.s "x")]) = Except.error (PyErr.keyError "event") :=
  ⟨webhook_missing_fields_amended.1
    ⟨["service.deleted"], ["incident.triggered"], ["service.updated"],
      fun _ _ => Except.ok (J.o [])⟩
    (J.o [("event", J.o [("event_type", J.s "unmapped.event")])])
    (J.o [("event_type", J.s "unmapped.event")])
    (J.s "unmapped.event") rfl rfl rfl rfl rfl,
   webhook_missing_fields_amended.2.1
    ⟨["service.deleted"], ["incident.triggered"], ["service.updated"],
      fun _ _ => Except.ok (J.o [])⟩
    (J.o [("other", J.s "x")]) (PyErr.keyError "event") rfl⟩

/-- C4 counterexample: an upsert-classified event whose single-record
refetch raises not-found makes the handler propagate the error — no delete
action results and an error is raised, contrary to the claim. -/
theorem not_found_as_delete_cex :
    upsert_incident_webhook_handler
      ⟨[], ["incident.triggered"], [],
        fun _ _ => Except.error PyErr.notFound⟩
      (J.o [("event", J.o [("event_type", J.s "incident.triggered"),
                           ("data", J.o [("id", J.s "42")])])]) =
      Except.error PyErr.notFound
    ∧ ¬∃ acts, upsert_incident_webhook_handler
      ⟨[], ["incident.triggered"], [],
        fun _ _ => Except.error PyErr.notFound⟩
      (J.o [("event", J.o [("event_type", J.s "incident.triggered"),
                           ("data", J.o [("id", J.s "42")])])]) =
      Except.ok acts :=
  ⟨rfl, fun ⟨_, hcontra⟩ => Except.noConfusion hcontra⟩

/-- C4 amended: an upsert-classified webhook event (incident or service)
whose single-record refetch raises not-found propagates that error out of
the handler; no delete action and no implicit delete results. -/
theorem not_found_propagates :
    (∀ (c : PDClient) (data ev et d incidentId : J),
      jGet data "event" = Except.ok ev →
      jGet ev "event_type" = Except.ok et →
      evIn et c.service_delete_events = false →
      evIn et c.incident_upsert_events = true →
      jGet ev "data" = Except.ok d →
      jGet d "id" = Except.ok incidentId →
      c.getSingle "incidents" incidentId = Except.error PyErr.notFound →
      upsert_incident_webhook_handler c data =
        Except.error PyErr.notFound)
    ∧ (∀ (c : PDClient) (data ev et d serviceId : J),
      jGet data "event" = Except.ok ev →
      jGet ev "event_type" = Except.ok et →
      evIn et c.service_delete_events = false →
      evIn et c.incident_upsert_events = false →
      evIn et c.service_upsert_events = true →
      jGet ev "data" = Except.ok d →
      jGet d "id" = Except.ok serviceId →
      c.getSingle "services" serviceId = Except.error PyErr.notFound →
      upsert_incident_webhook_handler c data =
        Except.error PyErr.notFound) := by
  constructor
  · intro c data ev et d incidentId h1 h2 hdel hup h3 h4 h5
    simp [upsert_incident_webhook_handler, h1, h2, hdel, hup, h3, h4, h5]
  · intro c data ev et d serviceId h1 h2 hdel hinc hup h3 h4 h5
    simp [upsert_incident_webhook_handler, h1, h2, hdel, hinc, hup, h3, h4,
      h5]

/-- Witness for the amended C4 at a concrete client whose fetch raises
not-found. -/
theorem not_found_propagates_witness :
    upsert_incident_webhook_handler
      ⟨["service.deleted"], ["incident.triggered"], ["service.updated"],
        fun _ _ => Except.error PyErr.notFound⟩
      (J.o [("event", J.o [("event_type", J.s "incident.triggered"),
                           ("data", J.o [("id", J.s "42")])])]) =
      Except.error PyErr.notFound :=
  not_found_propagates.1
    ⟨["service.deleted"], ["incident.triggered"], ["service.updated"],
      fun _ _ => Except.error PyErr.notFound⟩
    (J.o [("event", J.o [("event_type", J.s "incident.triggered"),
                         ("data", J.o [("id", J.s "42")])])])
    (J.o [("event_type", J.s "incident.triggered"),
          ("data", J.o [("id", J.s "42")])])
    (J.s "incident.triggered")
    (J.o [("id", J.s "42")])
    (J.s "42")
    rfl rfl rfl rfl rfl rfl rfl

/-- C8 counterexample: with the event listener type set to `"ONCE"` (and no
app host at all), the PagerDuty startup hook still attempts webhook
creation — its body is unconditional — so webhook self-registration is not
skipped for the one-shot mode in all integrations. -/
theorem startup_once_not_skipped_cex :
    pagerduty_on_start "ONCE" none =
      [PDStartAction.logSubscribing,
       PDStartAction.createWebhooksIfNotExists]
    ∧ PDStartAction.createWebhooksIfNotExists ∈
        pagerduty_on_start "ONCE" none := by
  exact ⟨rfl, by simp [pagerduty_on_start]⟩

/-- C8 amended: in the GitLab integration, startup webhook setup is skipped
entirely when the event listener type is ONCE, and a missing (or empty)
appHost logs a warning and returns without attempting setup and without
raising; otherwise setup is attempted.  The PagerDuty startup hook, by
contrast, attempts webhook creation unconditionally. -/
theorem startup_webhook_registration_amended :
    (∀ (ah : Option String) (sf : Bool),
      gitlab_on_start "ONCE" ah sf = [GLStartAction.logSkipOnce])
    ∧ (∀ (elt : String) (sf : Bool), elt ≠ "ONCE" →
      gitlab_on_start elt none sf = [GLStartAction.warnNoAppHost])
    ∧ (∀ (elt : String) (ah : Option String) (sf : Bool),
      elt ≠ "ONCE" → ah.getD "" ≠ "" →
      GLStartAction.setupApplication ∈ gitlab_on_start elt ah sf)
    ∧ (∀ (elt : String) (ah : Option String),
      PDStartAction.createWebhooksIfNotExists ∈
        pagerduty_on_start elt ah) := by
  refine ⟨?_, ?_, ?_, ?_⟩
  · intro ah sf
    simp [gitlab_on_start]
  · intro elt sf h
    simp [gitlab_on_start, h]
  · intro elt ah sf h1 h2
    simp only [gitlab_on_start, if_neg h1, if_neg h2]
    cases sf <;> simp
  · intro elt ah
    simp [pagerduty_on_start]

/-- Witness for the amended C8 at concrete configurations. -/
theorem startup_webhook_registration_amended_witness :
    gitlab_on_start "ONCE" (some "https://host") true =
      [GLStartAction.logSkipOnce]
    ∧ gitlab_on_start "POLLING" none false = [GLStartAction.warnNoAppHost]
    ∧ GLStartAction.setupApplication ∈
        gitlab_on_start "POLLING" (some "https://host") false :=
  ⟨startup_webhook_registration_amended.1 (some "https://host") true,
   startup_webhook_registration_amended.2.1 "POLLING" false (by decide),
   startup_webhook_registration_amended.2.2.1 "POLLING"
     (some "https://host") false (by decide) (by decide)⟩

/-- Unfolding of `dlookup` on a cons cell. -/
theorem dlookup_cons {α : Type} (a : String) (b : α)
    (rest : List (String × α)) (q : String) :
    dlookup ((a, b) :: rest) q = if a = q then some b else dlookup rest q :=
  rfl

/-- Looking up a key other than the one replaced by the in-place update is
unaffected. -/
theorem dlookup_map_set_ne {α : Type} (d : List (String × α)) (k : String)
    (v : α) (q : String) (h : q ≠ k) :
    dlookup (d.map (fun p => if p.1 = k then (k, v) else p)) q =
      dlookup d q := by
  induction d with
  | nil => rfl
  | cons hd tl ih =>
    obtain ⟨a, b⟩ := hd
    rw [List.map_cons]
    by_cases hak : a = k
    · have hh : (if (a, b).1 = k then (k, v) else (a, b)) = ((k, v) : String × α) := by
        simp [hak]
      rw [hh, dlookup_cons, dlookup_cons,
        if_neg (show ¬k = q from fun hc => h hc.symm),
        if_neg (show ¬a = q from fun hc => h (hc.symm.trans hak)), ih]
    · have hh : (if (a, b).1 = k then (k, v) else (a, b)) = ((a, b) : String × α) := by
        simp [hak]
      rw [hh, dlookup_cons, dlookup_cons, ih]

/-- When the key is present, the in-place update makes its lookup return the
new value. -/
theorem dlookup_map_set_eq {α : Type} (d : List (String × α)) (k : String)
    (v : α) (h : (dlookup d k).isSome) :
    dlookup (d.map (fun p => if p.1 = k then (k, v) else p)) k = some v := by
  induction d with
  | nil => simp [dlookup] at h
  | cons hd tl ih =>
    obtain ⟨a, b⟩ := hd
    rw [List.map_cons]
    by_cases hak : a = k
    · have hh : (if (a, b).1 = k then (k, v) else (a, b)) = ((k, v) : String × α) := by
        simp [hak]
      rw [hh, dlookup_cons, if_pos rfl]
    · have hh : (if (a, b).1 = k then (k, v) else (a, b)) = ((a, b) : String × α) := by
        simp [hak]
      rw [hh, dlookup_cons, if_neg hak]
      apply ih
      rw [dlookup_cons, if_neg hak] at h
      exact h

/-- Lookup through an append: the left list is consulted first. -/
theorem dlookup_append {α : Type} (d e : List (String × α)) (q : String) :
    dlookup (d ++ e) q =
      match dlookup d q with
      | some v => some v
      | none => dlookup e q := by
  induction d with
  | nil => rfl
  | cons hd tl ih =>
    obtain ⟨a, b⟩ := hd
    rw [List.cons_append, dlookup_cons, dlookup_cons]
    by_cases haq : a = q
    · rw [if_pos haq, if_pos haq]
    · rw [if_neg haq, if_neg haq, ih]

/-- `dict_set` leaves the lookup of every other key unchanged. -/
theorem dlookup_dict_set_ne {α : Type} (d : List (String × α)) (k : String)
    (v : α) (q : String) (h : q ≠ k) :
    dlookup (dict_set d k v) q = dlookup d q := by
  rw [dict_set]
  by_cases hs : (dlookup d k).isSome
  · rw [if_pos hs]
    exact dlookup_map_set_ne d k v q h
  · rw [if_neg hs, dlookup_append]
    cases hdq : dlookup d q with
    | some w => rfl
    | none =>
      rw [dlookup_cons, if_neg (fun hc => h hc.symm)]
      rfl

/-- `dict_set` makes the lookup of the written key return the new value. -/
theorem dlookup_dict_set_self {α : Type} (d : List (String × α))
    (k : String) (v : α) :
    dlookup (dict_set d k v) k = some v := by
  rw [dict_set]
  by_cases hs : (dlookup d k).isSome
  · rw [if_pos hs]
    exact dlookup_map_set_eq d k v hs
  · rw [if_neg hs, dlookup_append]
    rw [Option.not_isSome_iff_eq_none] at hs
    rw [hs, dlookup_cons, if_pos rfl]

/-- C9 counterexample: a pipeline record that already carries a
`"__project"` field has that original field's value overwritten by the
enrichment, so not every original field survives unchanged. -/
theorem pipeline_project_field_cex :
    resync_pipelines_batch "new" [[("__project", "old")]] =
      [[("__project", "new")]]
    ∧ dlookup [("__project", "old")] "__project" = some "old"
    ∧ dlookup [("__project", "new")] "__project" = some "new"
    ∧ ("old" : String) ≠ "new" :=
  ⟨rfl, rfl, rfl, by decide⟩

/-- C9 amended: every emitted pipeline record is the original record with
the `"__project"` key set to the parent project snapshot; every field whose
key differs from `"__project"` (in particular the identity field) keeps its
original value, and a pre-existing `"__project"` field, if any, is
overwritten. -/
theorem pipeline_enrichment_preserves_fields {α : Type}
    (d : List (String × α)) (proj : α) (q : String)
    (h : q ≠ "__project") :
    dlookup (dict_set d "__project" proj) q = dlookup d q
    ∧ dlookup (dict_set d "__project" proj) "__project" = some proj
    ∧ (∀ (ps : List (List (String × α))) (i : Nat)
        (h1 : i < ps.length)
        (h2 : i < (resync_pipelines_batch proj ps).length),
        (resync_pipelines_batch proj ps).get ⟨i, h2⟩ =
          dict_set (ps.get ⟨i, h1⟩) "__project" proj) := by
  refine ⟨dlookup_dict_set_ne d "__project" proj q h,
    dlookup_dict_set_self d "__project" proj, ?_⟩
  intro ps i h1 h2
  simp [resync_pipelines_batch]

/-- Witness for the amended C9 at a concrete pipeline record. -/
theorem pipeline_enrichment_preserves_fields_witness :
    dlookup (dict_set [("id", "17"), ("status", "ok")] "__project" "proj")
      "id" = dlookup [("id", "17"), ("status", "ok")] "id"
    ∧ dlookup (dict_set [("id", "17"), ("status", "ok")] "__project" "proj")
      "__project" = some "proj" :=
  ⟨(pipeline_enrichment_preserves_fields [("id", "17"), ("status", "ok")]
      "proj" "id" (by decide)).1,
   (pipeline_enrichment_preserves_fields [("id", "17"), ("status", "ok")]
      "proj" "id" (by decide)).2.1⟩

/-- Unfolding of `chunks` on the empty page. -/
theorem chunks_nil {α : Type} (k : Nat) : chunks k ([] : List α) = [] := by
  cases k <;> simp [chunks]

/-- Unfolding of `chunks` on a non-empty page for a positive group size. -/
theorem chunks_cons_ne {α : Type} (k : Nat) (hk : k ≠ 0) (x : α)
    (xs : List α) :
    chunks k (x :: xs) = (x :: xs).take k :: chunks k ((x :: xs).drop k) := by
  cases k with
  | zero => exact absurd rfl hk
  | succ n => simp [chunks]

/-- Every group produced by `chunks` has at most `k` records. -/
theorem chunks_length_le {α : Type} :
    ∀ (k : Nat) (l : List α), ∀ c ∈ chunks k l, c.length ≤ k
  | _, [] => by simp [chunks_nil]
  | 0, x :: xs => by simp [chunks]
  | k + 1, x :: xs => by
    intro c hc
    rw [chunks_cons_ne (k + 1) (Nat.succ_ne_zero k)] at hc
    rcases List.mem_cons.mp hc with h | h
    · subst h
      simp only [List.length_take]
      omega
    · exact chunks_length_le (k + 1) ((x :: xs).drop (k + 1)) c h
termination_by k l => l.length
decreasing_by simp [List.length_drop]; omega

/-- For a positive group size, the groups concatenate back to the page: no
record is lost or duplicated by the chunking loop. -/
theorem chunks_flatten {α : Type} :
    ∀ (k : Nat), k ≠ 0 → ∀ (l : List α), (chunks k l).flatten = l
  | _, _, [] => by simp [chunks_nil]
  | 0, hk, x :: xs => absurd rfl hk
  | k + 1, hk, x :: xs => by
    rw [chunks_cons_ne (k + 1) (Nat.succ_ne_zero k), List.flatten_cons,
      chunks_flatten (k + 1) hk ((x :: xs).drop (k + 1))]
    exact List.take_append_drop (k + 1) (x :: xs)
termination_by k _ l => l.length
decreasing_by simp [List.length_drop]; omega

/-- A successful gather has one result per task, in task order: the `i`-th
output is the result of the `i`-th enrichment call. -/
theorem gatherExcept_ok_spec {α β ε : Type} (f : α → Except ε β)
    (b : List α) (eb : List β) (h : gatherExcept f b = Except.ok eb) :
    eb.length = b.length ∧
    ∀ (i : Nat) (h1 : i < b.length) (h2 : i < eb.length),
      f (b.get ⟨i, h1⟩) = Except.ok (eb.get ⟨i, h2⟩) := by
  induction b generalizing eb with
  | nil =>
    simp only [gatherExcept] at h
    cases h
    exact ⟨rfl, fun i h1 h2 => absurd h1 (by simp)⟩
  | cons x xs ih =>
    simp only [gatherExcept] at h
    cases hfx : f x with
    | error e => rw [hfx] at h; exact Except.noConfusion h
    | ok y =>
      rw [hfx] at h
      cases hg : gatherExcept f xs with
      | error e => rw [hg] at h; exact Except.noConfusion h
      | ok ys =>
        rw [hg] at h
        cases h
        obtain ⟨hlen, hget⟩ := ih ys hg
        refine ⟨by simp [hlen], ?_⟩
        intro i h1 h2
        cases i with
        | zero => simpa using hfx
        | succ j =>
          simp only [List.get]
          exact hget j (by simpa using h1) (by simpa using h2)

/-- A gather over a group containing a failing task fails. -/
theorem gatherExcept_error_of_mem {α β ε : Type} (f : α → Except ε β)
    (l : List α) (x : α) (e : ε) (hx : x ∈ l)
    (he : f x = Except.error e) :
    ∃ err, gatherExcept f l = Except.error err := by
  induction l with
  | nil => exact absurd hx (List.not_mem_nil x)
  | cons y ys ih =>
    rcases List.mem_cons.mp hx with h | h
    · subst h
      exact ⟨e, by simp [gatherExcept, he]⟩
    · cases hfy : f y with
      | error e2 => exact ⟨e2, by simp [gatherExcept, hfy]⟩
      | ok w =>
        obtain ⟨err, herr⟩ := ih h
        exact ⟨err, by simp [gatherExcept, hfy, herr]⟩

/-- Every batch yielded by the resync loop is the fully successful gather of
one of the chunked groups. -/
theorem yieldBatches_mem {α ε : Type} (enrich : α → Except ε α)
    (bs : List (List α)) (yb : List α)
    (h : yb ∈ (yieldBatches enrich bs).1) :
    ∃ c, c ∈ bs ∧ gatherExcept enrich c = Except.ok yb := by
  induction bs with
  | nil => exact absurd h (List.not_mem_nil yb)
  | cons b rest ih =>
    simp only [yieldBatches] at h
    cases hg : gatherExcept enrich b with
    | error e =>
      rw [hg] at h
      exact absurd h (List.not_mem_nil yb)
    | ok eb =>
      rw [hg] at h
      rcases List.mem_cons.mp h with h2 | h2
      · exact ⟨b, List.mem_cons_self b rest, h2 ▸ hg⟩
      · obtain ⟨c, hc, hgc⟩ := ih h2
        exact ⟨c, List.mem_cons_of_mem b hc, hgc⟩

/-- If any chunked group's gather fails, the resync loop surfaces an
error. -/
theorem yieldBatches_err {α ε : Type} (enrich : α → Except ε α)
    (bs : List (List α)) (c : List α) (e : ε) (hc : c ∈ bs)
    (hg : gatherExcept enrich c = Except.error e) :
    ∃ err, (yieldBatches enrich bs).2 = some err := by
  induction bs with
  | nil => exact absurd hc (List.not_mem_nil c)
  | cons b rest ih =>
    simp only [yieldBatches]
    cases hgb : gatherExcept enrich b with
    | error e2 => exact ⟨e2, rfl⟩
    | ok eb =>
      rcases List.mem_cons.mp hc with h2 | h2
      · subst h2
        rw [hgb] at hg
        exact Except.noConfusion hg
      · obtain ⟨err, herr⟩ := ih h2
        exact ⟨err, by simpa using herr⟩

/-- C5: if the enrichment of any single record of a chunked group fails, the
project resync surfaces an error, every batch it did yield is the fully
successful gather of some group, and the failing group's gather never
succeeds — so no batch containing that group's records is ever yielded. -/
theorem fail_fast_on_partial_enrichment {α ε : Type}
    (enrich : α → Except ε α) (projects : List α) (c : List α) (x : α)
    (e : ε) (hc : c ∈ chunks PROJECT_RESYNC_BATCH_SIZE projects)
    (hx : x ∈ c) (he : enrich x = Except.error e) :
    (∃ err, (on_resync_project enrich projects).2 = some err)
    ∧ (∀ yb ∈ (on_resync_project enrich projects).1,
        ∃ g, g ∈ chunks PROJECT_RESYNC_BATCH_SIZE projects ∧
          gatherExcept enrich g = Except.ok yb)
    ∧ (∀ yb, gatherExcept enrich c ≠ Except.ok yb) := by
  obtain ⟨e2, he2⟩ := gatherExcept_error_of_mem enrich c x e hx he
  refine ⟨yieldBatches_err enrich _ c e2 hc he2, ?_, ?_⟩
  · intro yb hyb
    exact yieldBatches_mem enrich _ yb hyb
  · intro yb hcontra
    rw [he2] at hcontra
    exact Except.noConfusion hcontra

/-- Witness for C5: a page `[1, 2, 3]` whose record `2` fails enrichment
surfaces an error from the resync. -/
theorem fail_fast_on_partial_enrichment_witness :
    ∃ err, (on_resync_project
      (fun n : Nat => if n = 2 then Except.error 0 else Except.ok n)
      [1, 2, 3]).2 = some err :=
  (fail_fast_on_partial_enrichment
    (fun n : Nat => if n = 2 then Except.error 0 else Except.ok n)
    [1, 2, 3] [1, 2, 3] 2 0
    (by
      have h1 : chunks PROJECT_RESYNC_BATCH_SIZE ([1, 2, 3] : List Nat) =
          [[1, 2, 3]] := by
        rw [show PROJECT_RESYNC_BATCH_SIZE = 10 from rfl,
          chunks_cons_ne 10 (by decide) 1 [2, 3]]
        simp [chunks_nil]
      rw [h1]
      simp)
    (by simp) rfl).1

/-- C6: a successful enrichment gather returns one record per input record
in input order: the `i`-th output is the enrichment result of the `i`-th
project of the batch, independently of any completion order of the
underlying calls (the gather contract). -/
theorem order_preservation_under_enrichment {α ε : Type}
    (enrich : α → Except ε α) (b : List α) (eb : List α)
    (h : gatherExcept enrich b = Except.ok eb) :
    eb.length = b.length ∧
    ∀ (i : Nat) (h1 : i < b.length) (h2 : i < eb.length),
      enrich (b.get ⟨i, h1⟩) = Except.ok (eb.get ⟨i, h2⟩) :=
  gatherExcept_ok_spec enrich b eb h

/-- Witness for C6 at a concrete batch and enrichment function. -/
theorem order_preservation_under_enrichment_witness :
    ([2, 4, 6] : List Nat).length = ([1, 2, 3] : List Nat).length :=
  (order_preservation_under_enrichment
    (fun n : Nat => (Except.ok (n * 2) : Except Unit Nat))
    [1, 2, 3] [2, 4, 6] rfl).1

/-- C7: the project resync chunks each page into groups of at most
`PROJECT_RESYNC_BATCH_SIZE = 10` records, losing and duplicating nothing,
and fans enrichment out only within one group at a time, so at most 10
enrichment calls are gathered simultaneously and every yielded batch has at
most 10 records. -/
theorem concurrency_ceiling {α ε : Type} (enrich : α → Except ε α)
    (l : List α) :
    PROJECT_RESYNC_BATCH_SIZE = 10
    ∧ (∀ c ∈ chunks PROJECT_RESYNC_BATCH_SIZE l,
        c.length ≤ PROJECT_RESYNC_BATCH_SIZE)
    ∧ (chunks PROJECT_RESYNC_BATCH_SIZE l).flatten = l
    ∧ (∀ yb ∈ (on_resync_project enrich l).1,
        yb.length ≤ PROJECT_RESYNC_BATCH_SIZE) := by
  refine ⟨rfl, fun c hc => chunks_length_le _ l c hc,
    chunks_flatten _ (by decide) l, ?_⟩
  intro yb hyb
  obtain ⟨c, hc, hg⟩ := yieldBatches_mem enrich _ yb hyb
  rw [(gatherExcept_ok_spec enrich c yb hg).1]
  exact chunks_length_le _ l c hc

/-- Witness for C7: the batch size is 10 and a concrete group respects the
ceiling. -/
theorem concurrency_ceiling_witness :
    PROJECT_RESYNC_BATCH_SIZE = 10
    ∧ ([1, 2, 3] : List Nat).length ≤ PROJECT_RESYNC_BATCH_SIZE :=
  ⟨(concurrency_ceiling
      (fun n : Nat => (Except.ok n : Except Unit Nat)) [1, 2, 3]).1,
   (concurrency_ceiling
      (fun n : Nat => (Except.ok n : Except Unit Nat)) [1, 2, 3]).2.1
     [1, 2, 3]
     (by
       have h1 : chunks PROJECT_RESYNC_BATCH_SIZE ([1, 2, 3] : List Nat) =
           [[1, 2, 3]] := by
         rw [show PROJECT_RESYNC_BATCH_SIZE = 10 from rfl,
           chunks_cons_ne 10 (by decide) 1 [2, 3]]
         simp [chunks_nil]
       rw [h1]
       simp)⟩
